import Mathlib

/-!
Verification of the surge-arrester selection calculator (`app.py`).

The formula pipeline of the application is embedded shallowly: each
Python function becomes a Lean function over `ℝ`, and the Python
runtime failures a stage can raise (`ZeroDivisionError` on a zero
divisor, the `ValueError` of `math.log` on a non-positive argument)
are embedded as an `Except` error value, so that a stage that would
raise returns `.error` and the orchestrated computation aborts.
-/

/-- The runtime failures the formula pipeline can raise in Python:
division by zero and a `math.log` domain violation. -/
inductive PyError where
  | zeroDivision : PyError
  | mathDomain : PyError

noncomputable section

/-- `calculate_cov`: continuous operating voltage, `1.05 * (U_m / sqrt(3))`. -/
def calculate_cov (U_m : ℝ) : ℝ := 1.05 * (U_m / Real.sqrt 3)

/-- `calculate_tov`: maximum temporary overvoltage, `K_e * cov`. -/
def calculate_tov (cov K_e : ℝ) : ℝ := K_e * cov

/-- `calculate_rated_voltage`: `U_r1 = cov / k_d`, `U_r2 = tov / k_tov`,
returns `(max U_r1 U_r2, U_r1, U_r2)`; a zero divisor raises
`ZeroDivisionError` in Python, embedded as `.error`. -/
def calculate_rated_voltage (cov tov k_d k_tov : ℝ) :
    Except PyError (ℝ × ℝ × ℝ) :=
  if k_d = 0 then .error .zeroDivision
  else if k_tov = 0 then .error .zeroDivision
  else .ok (max (cov / k_d) (tov / k_tov), cov / k_d, tov / k_tov)

/-- The hard-coded `standard_values` catalog of `normalized_rated_voltage`. -/
def standard_values : List ℝ :=
  [96, 108, 120, 144, 156, 168, 180, 192, 216, 228, 240, 258, 264, 276,
   288, 300, 312, 330, 336, 360, 396]

/-- `normalized_rated_voltage`: the first catalog value that is
`>= U_r_theoretical`; if the loop finds none, the last catalog value
(396) is returned. -/
def normalized_rated_voltage (U_r_theoretical : ℝ) : ℝ :=
  match standard_values.find? (fun value => decide (U_r_theoretical ≤ value)) with
  | some value => value
  | none => 396

/-- `calculate_incident_voltage`: returns `(V_i, V_50, w)` with
`w = num_insulators * insulator_length`, `V_50 = 550 * w`,
`V_i = V_50 * (1 - 1.3 * sigma)`. -/
def calculate_incident_voltage (num_insulators : ℕ)
    (insulator_length sigma : ℝ) : ℝ × ℝ × ℝ :=
  let w := (num_insulators : ℝ) * insulator_length
  let V_50 := 550 * w
  let V_i := V_50 * (1 - 1.3 * sigma)
  (V_i, V_50, w)

/-- The module-level `if/elif` chain selecting the characteristic
impedance `Z_0` from the system voltage. -/
def select_Z0 (system_voltage : ℝ) : ℝ :=
  if system_voltage < 145 then 450
  else if 145 ≤ system_voltage ∧ system_voltage ≤ 345 then 400
  else 350

/-- `calculate_discharge_current`: `I_d = (2 * V_i) / Z_0` and the
nominal pick over the standard values 5, 10, 20; the final `else`
branch of the source also yields 20. Dividing by `Z_0 = 0` raises. -/
def calculate_discharge_current (V_i Z_0 : ℝ) : Except PyError (ℝ × ℕ) :=
  if Z_0 = 0 then .error .zeroDivision
  else
    let I_d := 2 * V_i / Z_0
    if I_d ≤ 5 then .ok (I_d, 5)
    else if I_d ≤ 10 then .ok (I_d, 10)
    else if I_d ≤ 20 then .ok (I_d, 20)
    else .ok (I_d, 20)

/-- The `if/elif` chain of `calculate_energy_absorption` assigning the
line-discharge class from `W_prime`. -/
def discharge_class (W_prime : ℝ) : ℕ :=
  if W_prime ≤ 1 then 1
  else if W_prime ≤ 2 then 2
  else if W_prime ≤ 3 then 3
  else if W_prime ≤ 4 then 4
  else 5

/-- `calculate_energy_absorption`: wave travel time, absorbed energy,
specific energy and class, returned as `(W, W_prime, T_w, class)`.
Zero divisors and a non-positive `math.log` argument raise, in the
evaluation order of the Python expression. -/
def calculate_energy_absorption (V_50 U_res U_r Z_0 line_length v N n : ℝ) :
    Except PyError (ℝ × ℝ × ℝ × ℕ) :=
  if v = 0 then .error .zeroDivision
  else
    let T_w := line_length / v
    if U_res = 0 then .error .zeroDivision
    else if 2 * V_50 / U_res ≤ 0 then .error .mathDomain
    else if Z_0 = 0 then .error .zeroDivision
    else
      let W := (2 * V_50 - N * U_res * (1 + Real.log (2 * V_50 / U_res))) *
        (U_res * T_w * n) / Z_0
      if U_r * 1000 = 0 then .error .zeroDivision
      else
        let W_prime := W / (U_r * 1000)
        .ok (W, W_prime, T_w, discharge_class W_prime)

/-- `estimate_switching_impulse_protection_level`: `round(U_r * 1.85)`. -/
def estimate_switching_impulse_protection_level (U_r : ℝ) : ℤ :=
  round (U_r * 1.85)

/-- The full derived record assembled by the result block of the app. -/
structure CalculationResult where
  cov : ℝ
  tov : ℝ
  U_r1 : ℝ
  U_r2 : ℝ
  U_r_theoretical : ℝ
  U_r_normalized : ℝ
  string_length_w : ℝ
  V_50 : ℝ
  V_i : ℝ
  Z_0 : ℝ
  I_d_calculated : ℝ
  I_d_nominal : ℕ
  T_w : ℝ
  W_joules : ℝ
  W_prime : ℝ
  discharge_class : ℕ
  NPM_estimate : ℤ

/-- The `Calcular` result block: runs every stage in source order and
assembles the full record; a raise in any stage aborts the whole
computation with that stage's error, exactly as an uncaught Python
exception would prevent the summary from being assembled. -/
def compute (U_m K_e k_d k_tov : ℝ) (num_insulators : ℕ)
    (insulator_length sigma system_voltage U_res line_length v : ℝ)
    (N n : ℕ) : Except PyError CalculationResult :=
  let cov := calculate_cov U_m
  let tov := calculate_tov cov K_e
  match calculate_rated_voltage cov tov k_d k_tov with
  | .error e => .error e
  | .ok (U_r_theoretical, U_r1, U_r2) =>
    let U_r := normalized_rated_voltage U_r_theoretical
    let iv := calculate_incident_voltage num_insulators insulator_length sigma
    let Z_0 := select_Z0 system_voltage
    match calculate_discharge_current iv.1 Z_0 with
    | .error e => .error e
    | .ok (I_d, I_d_nominal) =>
      match calculate_energy_absorption iv.2.1 U_res U_r Z_0 line_length v N n with
      | .error e => .error e
      | .ok (W, W_prime, T_w, dclass) =>
        .ok ⟨cov, tov, U_r1, U_r2, U_r_theoretical, U_r, iv.2.2, iv.2.1, iv.1,
          Z_0, I_d, I_d_nominal, T_w, W, W_prime, dclass,
          estimate_switching_impulse_protection_level U_r⟩

end

/-! ### Properties of the rated-voltage catalog lookup -/

lemma standard_values_sorted : standard_values.Sorted (· ≤ ·) := by
  norm_num [standard_values, List.sorted_cons]

lemma standard_values_le_396 : ∀ u ∈ standard_values, u ≤ (396 : ℝ) := by
  intro u hu
  fin_cases hu <;> norm_num

lemma mem_standard_396 : (396 : ℝ) ∈ standard_values := by
  norm_num [standard_values]

/-- On a `≤`-sorted list, the first element satisfying `x ≤ ·` is minimal
among all elements satisfying it. -/
lemma sorted_find?_min {x v : ℝ} :
    ∀ {l : List ℝ}, l.Sorted (· ≤ ·) →
      l.find? (fun u => decide (x ≤ u)) = some v →
      ∀ u ∈ l, x ≤ u → v ≤ u := by
  intro l
  induction l with
  | nil => intro _ hf; simp [List.find?] at hf
  | cons a t ih =>
    intro hs hf u hu hxu
    rw [List.sorted_cons] at hs
    by_cases hxa : x ≤ a
    · rw [List.find?_cons_of_pos _ (by simpa using hxa)] at hf
      obtain rfl : a = v := by simpa using hf
      rcases List.mem_cons.mp hu with rfl | hut
      · exact le_rfl
      · exact hs.1 u hut
    · rw [List.find?_cons_of_neg _ (by simpa using hxa)] at hf
      rcases List.mem_cons.mp hu with rfl | hut
      · exact absurd hxu hxa
      · exact ih hs.2 hf u hut hxu

lemma normalized_mem (x : ℝ) : normalized_rated_voltage x ∈ standard_values := by
  unfold normalized_rated_voltage
  cases hf : standard_values.find? (fun value => decide (x ≤ value)) with
  | none => exact mem_standard_396
  | some v => exact List.mem_of_find?_eq_some hf

lemma le_normalized (x : ℝ) (hx : x ≤ 396) : x ≤ normalized_rated_voltage x := by
  unfold normalized_rated_voltage
  cases hf : standard_values.find? (fun value => decide (x ≤ value)) with
  | none => exact hx
  | some v => simpa using List.find?_some hf

lemma normalized_min (x : ℝ) :
    ∀ u ∈ standard_values, x ≤ u → normalized_rated_voltage x ≤ u := by
  intro u hu hxu
  unfold normalized_rated_voltage
  cases hf : standard_values.find? (fun value => decide (x ≤ value)) with
  | none =>
    exact absurd hxu (by simpa using List.find?_eq_none.mp hf u hu)
  | some v => exact sorted_find?_min standard_values_sorted hf u hu hxu

lemma normalized_of_gt_396 (x : ℝ) (hx : 396 < x) :
    normalized_rated_voltage x = 396 := by
  unfold normalized_rated_voltage
  cases hf : standard_values.find? (fun value => decide (x ≤ value)) with
  | none => rfl
  | some v =>
    have h1 : x ≤ v := by simpa using List.find?_some hf
    have h2 : v ≤ 396 := standard_values_le_396 v (List.mem_of_find?_eq_some hf)
    linarith

lemma normalized_of_le_96 (x : ℝ) (hx : x ≤ 96) :
    normalized_rated_voltage x = 96 := by
  unfold normalized_rated_voltage standard_values
  rw [List.find?_cons_of_pos _ (by simpa using hx)]

lemma normalized_self (x : ℝ) (hx : x ∈ standard_values) :
    normalized_rated_voltage x = x :=
  le_antisymm (normalized_min x x hx le_rfl)
    (le_normalized x (standard_values_le_396 x hx))

lemma catalog_window_192 :
    ∀ u ∈ standard_values, 180 < u → u ≤ 192 → u = (192 : ℝ) := by
  intro u hu
  fin_cases hu <;> norm_num

lemma normalized_window_192 (x : ℝ) (h1 : 180 < x) (h2 : x ≤ 192) :
    normalized_rated_voltage x = 192 := by
  have hmem := normalized_mem x
  have hmin := normalized_min x 192 (by norm_num [standard_values]) h2
  have hge := le_normalized x (by linarith)
  exact catalog_window_192 _ hmem (by linarith) hmin

/-! ### Properties of the line-discharge class chain -/

lemma discharge_class_bounds (w : ℝ) :
    1 ≤ discharge_class w ∧ discharge_class w ≤ 5 := by
  unfold discharge_class
  split_ifs <;> norm_num

lemma le_discharge_class (w : ℝ) (hw : w ≤ 5) :
    w ≤ (discharge_class w : ℝ) := by
  unfold discharge_class
  split_ifs with h1 h2 h3 h4 <;> push_cast <;> linarith

lemma discharge_class_min {w : ℝ} {c : ℕ} (hc : 1 ≤ c) (hwc : w ≤ (c : ℝ)) :
    discharge_class w ≤ c := by
  unfold discharge_class
  split_ifs with h1 h2 h3 h4
  · exact hc
  · have hr : (1 : ℝ) < c := lt_of_lt_of_le (not_le.mp h1) hwc
    have : 1 < c := by exact_mod_cast hr
    omega
  · have hr : (2 : ℝ) < c := lt_of_lt_of_le (not_le.mp h2) hwc
    have : 2 < c := by exact_mod_cast hr
    omega
  · have hr : (3 : ℝ) < c := lt_of_lt_of_le (not_le.mp h3) hwc
    have : 3 < c := by exact_mod_cast hr
    omega
  · have hr : (4 : ℝ) < c := lt_of_lt_of_le (not_le.mp h4) hwc
    have : 4 < c := by exact_mod_cast hr
    omega

lemma discharge_class_of_gt_4 {w : ℝ} (hw : 4 < w) : discharge_class w = 5 := by
  unfold discharge_class
  split_ifs with h1 h2 h3 h4
  · exact absurd h1 (by linarith)
  · exact absurd h2 (by linarith)
  · exact absurd h3 (by linarith)
  · exact absurd h4 (by linarith)
  · rfl

lemma discharge_class_mono {a b : ℝ} (hab : a ≤ b) :
    discharge_class a ≤ discharge_class b := by
  rcases le_or_lt b 4 with hb | hb
  · exact discharge_class_min (discharge_class_bounds b).1
      (le_trans hab (le_discharge_class b (by linarith)))
  · rw [discharge_class_of_gt_4 hb]
    exact (discharge_class_bounds a).2

/-! ### Numeric bounds for the reference scenario -/

lemma sqrt3_bounds : 1.7320508 < Real.sqrt 3 ∧ Real.sqrt 3 < 1.7320509 := by
  constructor
  · rw [show (1.7320508 : ℝ) < Real.sqrt 3 ↔ (1.7320508 : ℝ) ^ 2 < 3 from
      Real.lt_sqrt (by norm_num)]
    norm_num
  · rw [Real.sqrt_lt' (by norm_num)]
    norm_num

lemma cov245_bounds : 148.523 < calculate_cov 245 ∧ calculate_cov 245 < 148.524 := by
  obtain ⟨hs1, hs2⟩ := sqrt3_bounds
  have hpos : (0 : ℝ) < Real.sqrt 3 := by linarith
  unfold calculate_cov
  rw [show (1.05 : ℝ) * (245 / Real.sqrt 3) = 257.25 / Real.sqrt 3 by ring]
  constructor
  · rw [lt_div_iff₀ hpos]
    nlinarith
  · rw [div_lt_iff₀ hpos]
    nlinarith

/-! ### Claims -/

/-- Claim C1: for every real input, `normalized_rated_voltage` returns the
smallest catalog value that is greater than or equal to the input (a member
of the catalog, at least the input whenever a catalog value suffices, and
minimal among the admissible catalog values); an input equal to a catalog
entry returns exactly that entry, and an input above every catalog value
returns the catalog maximum 396. -/
theorem claim_C1 (x : ℝ) :
    normalized_rated_voltage x ∈ standard_values ∧
    (x ≤ 396 → x ≤ normalized_rated_voltage x) ∧
    (∀ u ∈ standard_values, x ≤ u → normalized_rated_voltage x ≤ u) ∧
    (x ∈ standard_values → normalized_rated_voltage x = x) ∧
    (396 < x → normalized_rated_voltage x = 396) :=
  ⟨normalized_mem x, le_normalized x, normalized_min x,
    normalized_self x, normalized_of_gt_396 x⟩

theorem claim_C1_witness :
    ((150 : ℝ) ≤ normalized_rated_voltage 150 ∧
      normalized_rated_voltage 400 = 396) :=
  ⟨(claim_C1 150).2.1 (by norm_num), (claim_C1 400).2.2.2.2 (by norm_num)⟩

/-- Claim C10: for every real input, with no positivity precondition,
`normalized_rated_voltage` returns an element of the hard-coded catalog,
and for every input at most 96 (including zero and negative inputs) it
returns the catalog minimum 96. -/
theorem claim_C10 (x : ℝ) :
    normalized_rated_voltage x ∈ standard_values ∧
    (x ≤ 96 → normalized_rated_voltage x = 96) :=
  ⟨normalized_mem x, normalized_of_le_96 x⟩

theorem claim_C10_witness :
    normalized_rated_voltage (-5) = 96 ∧ normalized_rated_voltage 0 = 96 :=
  ⟨(claim_C10 (-5)).2 (by norm_num), (claim_C10 0).2 (by norm_num)⟩

/-- Claim C5: the characteristic-impedance selection is a total three-band
classification: strictly below 145 gives 450 Ohm, from 145 to 345 inclusive
gives 400 Ohm, strictly above 345 gives 350 Ohm. -/
theorem claim_C5 (system_voltage : ℝ) :
    (system_voltage < 145 → select_Z0 system_voltage = 450) ∧
    (145 ≤ system_voltage → system_voltage ≤ 345 →
      select_Z0 system_voltage = 400) ∧
    (345 < system_voltage → select_Z0 system_voltage = 350) := by
  unfold select_Z0
  refine ⟨fun h => ?_, fun h1 h2 => ?_, fun h => ?_⟩
  · rw [if_pos h]
  · rw [if_neg (by linarith), if_pos ⟨h1, h2⟩]
  · rw [if_neg (by linarith), if_neg (fun hc => by linarith [hc.2])]

theorem claim_C5_witness :
    select_Z0 100 = 450 ∧ select_Z0 145 = 400 ∧ select_Z0 345 = 400 ∧
      select_Z0 400 = 350 :=
  ⟨(claim_C5 100).1 (by norm_num),
    (claim_C5 145).2.1 (by norm_num) (by norm_num),
    (claim_C5 345).2.1 (by norm_num) (by norm_num),
    (claim_C5 400).2.2 (by norm_num)⟩

/-- Claim C2: for all `cov`, `tov` and positive `k_d`, `k_tov`,
`calculate_rated_voltage` succeeds and returns
`U_r_theoretical = max (cov / k_d) (tov / k_tov)` together with the two
candidates `U_r1 = cov / k_d` and `U_r2 = tov / k_tov`. -/
theorem claim_C2 (cov tov k_d k_tov : ℝ) (hd : 0 < k_d) (ht : 0 < k_tov) :
    calculate_rated_voltage cov tov k_d k_tov =
      .ok (max (cov / k_d) (tov / k_tov), cov / k_d, tov / k_tov) := by
  unfold calculate_rated_voltage
  rw [if_neg (ne_of_gt hd), if_neg (ne_of_gt ht)]

theorem claim_C2_witness :
    calculate_rated_voltage 100 200 1 2 = .ok (100, 100, 100) := by
  rw [claim_C2 100 200 1 2 (by norm_num) (by norm_num)]
  norm_num

/-- Claim C3 counterexample: at the concrete negative design factor
`k_d = -1` (with `k_tov = 1`), `calculate_rated_voltage` does not fail:
it succeeds with a numeric result, refuting the claim that every
non-positive `k_d` produces an error. -/
theorem claim_C3_counterexample :
    calculate_rated_voltage 100 140 (-1) 1 = .ok (140, -100, 140) ∧
      (-1 : ℝ) < 0 := by
  constructor
  · unfold calculate_rated_voltage
    rw [if_neg (by norm_num), if_neg (by norm_num)]
    norm_num [max_def]
  · norm_num

/-- Claim C3, amended: the theoretical rated-voltage stage fails (a Python
`ZeroDivisionError`, the code's only analogue of a DomainError) exactly
when `k_d = 0` or `k_tov = 0`; for every other value, including negative
factors, it succeeds with the numeric result
`(max (cov / k_d) (tov / k_tov), cov / k_d, tov / k_tov)`. -/
theorem claim_C3_amended (cov tov k_d k_tov : ℝ) :
    ((∃ e, calculate_rated_voltage cov tov k_d k_tov = .error e) ↔
      k_d = 0 ∨ k_tov = 0) ∧
    (k_d ≠ 0 → k_tov ≠ 0 →
      calculate_rated_voltage cov tov k_d k_tov =
        .ok (max (cov / k_d) (tov / k_tov), cov / k_d, tov / k_tov)) := by
  unfold calculate_rated_voltage
  constructor
  · constructor
    · rintro ⟨e, he⟩
      by_contra hc
      push_neg at hc
      rw [if_neg hc.1, if_neg hc.2] at he
      exact Except.noConfusion he
    · rintro (h | h)
      · exact ⟨.zeroDivision, by rw [if_pos h]⟩
      · by_cases hd : k_d = 0
        · exact ⟨.zeroDivision, by rw [if_pos hd]⟩
        · exact ⟨.zeroDivision, by rw [if_neg hd, if_pos h]⟩
  · intro hd ht
    rw [if_neg hd, if_neg ht]

theorem claim_C3_amended_witness :
    calculate_rated_voltage 90 180 1 2 = .ok (90, 90, 90) := by
  rw [(claim_C3_amended 90 180 1 2).2 (by norm_num) (by norm_num)]
  norm_num

/-- Claim C4, code evaluated at the failing input: with `V_i = 4100` and
`Z_0 = 400` the computed discharge current is `I_d = 20.5 > 20`, and
`calculate_discharge_current` silently returns the saturated nominal 20 as
a bare pair: no SaturationWarning of any kind exists in the code. -/
theorem claim_C4 :
    calculate_discharge_current 4100 400 = .ok (41 / 2, 20) ∧
      (20 : ℝ) < 41 / 2 := by
  constructor
  · unfold calculate_discharge_current
    rw [if_neg (by norm_num)]
    norm_num
  · norm_num

/-- Claim C7: the discharge class is always in 1..5, equals the smallest
class `c` with `W_prime <= c` (it is an upper bound for `W_prime` whenever
some class is, and is minimal among admissible classes), saturates to 5
for `W_prime > 4`, and is monotone non-decreasing in `W_prime`. -/
theorem claim_C7 (W_prime : ℝ) :
    1 ≤ discharge_class W_prime ∧ discharge_class W_prime ≤ 5 ∧
    (W_prime ≤ 5 → W_prime ≤ (discharge_class W_prime : ℝ)) ∧
    (∀ c : ℕ, 1 ≤ c → W_prime ≤ (c : ℝ) → discharge_class W_prime ≤ c) ∧
    (4 < W_prime → discharge_class W_prime = 5) ∧
    (∀ y : ℝ, W_prime ≤ y → discharge_class W_prime ≤ discharge_class y) :=
  ⟨(discharge_class_bounds W_prime).1, (discharge_class_bounds W_prime).2,
    le_discharge_class W_prime, fun _ => discharge_class_min,
    discharge_class_of_gt_4, fun _ => discharge_class_mono⟩

theorem claim_C7_witness :
    discharge_class (3 / 2) ≤ 2 ∧ discharge_class (9 / 2) = 5 :=
  ⟨(claim_C7 (3 / 2)).2.2.2.1 2 (by norm_num) (by norm_num),
    (claim_C7 (9 / 2)).2.2.2.2.1 (by norm_num)⟩

/-- Claim C6: for positive inputs the energy stage succeeds and returns
`T_w = line_length / propagation_velocity`,
`W = (2*V_50 - N*U_res*(1 + ln (2*V_50/U_res))) * (U_res*T_w*n) / Z_0`,
and `W_prime` equal to `W` divided by 1000 (joules to kilojoules) and then
divided by `U_r_normalized`. -/
theorem claim_C6 (V_50 U_res U_r_normalized Z_0 line_length propagation_velocity : ℝ)
    (N n : ℕ) (hV : 0 < V_50) (hU : 0 < U_res) (hUr : 0 < U_r_normalized)
    (hZ : 0 < Z_0) (hL : 0 < line_length) (hv : 0 < propagation_velocity)
    (hN : 0 < N) (hn : 0 < n) :
    calculate_energy_absorption V_50 U_res U_r_normalized Z_0 line_length
        propagation_velocity N n =
      .ok ((2 * V_50 - N * U_res * (1 + Real.log (2 * V_50 / U_res))) *
            (U_res * (line_length / propagation_velocity) * n) / Z_0,
          ((2 * V_50 - N * U_res * (1 + Real.log (2 * V_50 / U_res))) *
            (U_res * (line_length / propagation_velocity) * n) / Z_0 / 1000) /
            U_r_normalized,
          line_length / propagation_velocity,
          discharge_class
            (((2 * V_50 - N * U_res * (1 + Real.log (2 * V_50 / U_res))) *
              (U_res * (line_length / propagation_velocity) * n) / Z_0 / 1000) /
              U_r_normalized)) := by
  have hlog : ¬ (2 * V_50 / U_res ≤ 0) := not_le.mpr (div_pos (by linarith) hU)
  have hUr1000 : U_r_normalized * 1000 ≠ 0 := by positivity
  simp only [calculate_energy_absorption]
  rw [if_neg (ne_of_gt hv), if_neg (ne_of_gt hU), if_neg hlog,
    if_neg (ne_of_gt hZ), if_neg hUr1000]
  have hdiv : ∀ a : ℝ, a / (U_r_normalized * 1000) = a / 1000 / U_r_normalized :=
    fun a => by rw [div_div, mul_comm]
  rw [hdiv]

theorem claim_C6_witness :
    calculate_energy_absorption 1 2 1 1 1 1 1 1 = .ok (0, 0, 1, 1) := by
  have h := claim_C6 1 2 1 1 1 1 1 1 (by norm_num) (by norm_num) (by norm_num)
    (by norm_num) (by norm_num) (by norm_num) (by norm_num) (by norm_num)
  push_cast at h
  rw [h]
  norm_num [Real.log_one, discharge_class]

/-- Claim C8 counterexample: the reference value `cov = 148.37` is wrong
for the code: `calculate_cov 245 = 1.05 * 245 / sqrt 3` differs from
148.37 by more than 0.1, so it is not approximately 148.37 at the stated
two-decimal precision. -/
theorem claim_C8_counterexample : 0.1 < |calculate_cov 245 - 148.37| := by
  obtain ⟨hl, hu⟩ := cov245_bounds
  rw [abs_of_pos (by linarith)]
  linarith

/-- Claim C8, amended: for the reference inputs `U_m = 245`, `K_e = 1.4`,
`k_d = 0.8`, `k_tov = 1.15` the pipeline gives `cov ≈ 148.52` kV (not
148.37), `tov ≈ 207.93` kV, `U_r1 ≈ 185.65`, `U_r2 ≈ 180.81`,
`U_r_theoretical = U_r1 ≈ 185.65`, and normalized `U_r = 192` kV. -/
theorem claim_C8_amended :
    (148.52 < calculate_cov 245 ∧ calculate_cov 245 < 148.53) ∧
    (207.93 < calculate_tov (calculate_cov 245) 1.4 ∧
      calculate_tov (calculate_cov 245) 1.4 < 207.94) ∧
    (185.65 < calculate_cov 245 / 0.8 ∧ calculate_cov 245 / 0.8 < 185.66) ∧
    (180.81 < calculate_tov (calculate_cov 245) 1.4 / 1.15 ∧
      calculate_tov (calculate_cov 245) 1.4 / 1.15 < 180.82) ∧
    calculate_rated_voltage (calculate_cov 245)
        (calculate_tov (calculate_cov 245) 1.4) 0.8 1.15 =
      .ok (calculate_cov 245 / 0.8, calculate_cov 245 / 0.8,
        calculate_tov (calculate_cov 245) 1.4 / 1.15) ∧
    normalized_rated_voltage (calculate_cov 245 / 0.8) = 192 := by
  obtain ⟨hl, hu⟩ := cov245_bounds
  have htov : calculate_tov (calculate_cov 245) 1.4 = 1.4 * calculate_cov 245 := rfl
  have hdiv8 : calculate_cov 245 / 0.8 = 1.25 * calculate_cov 245 := by ring
  have h115 : (0 : ℝ) < 1.15 := by norm_num
  refine ⟨⟨by linarith, by linarith⟩, ⟨?_, ?_⟩, ⟨?_, ?_⟩, ⟨?_, ?_⟩, ?_, ?_⟩
  · rw [htov]; linarith
  · rw [htov]; linarith
  · rw [hdiv8]; linarith
  · rw [hdiv8]; linarith
  · rw [htov, lt_div_iff₀ h115]; linarith
  · rw [htov, div_lt_iff₀ h115]; linarith
  · unfold calculate_rated_voltage
    rw [if_neg (by norm_num), if_neg (by norm_num)]
    have hle : calculate_tov (calculate_cov 245) 1.4 / 1.15 ≤
        calculate_cov 245 / 0.8 := by
      rw [htov, div_le_div_iff₀ h115 (by norm_num)]
      nlinarith
    rw [max_eq_left hle]
  · apply normalized_window_192
    · rw [hdiv8]; linarith
    · rw [hdiv8]; linarith

/-- Claim C9: the orchestrated computation is atomic: if the rated-voltage
stage, the discharge-current stage or the energy stage fails, `compute`
fails with that originating stage's error; and whenever `compute` returns
a result, every stage succeeded and the result is exactly the full record
assembled from the stage outputs (no partial record is ever produced). -/
theorem claim_C9 (U_m K_e k_d k_tov : ℝ) (num_insulators : ℕ)
    (insulator_length sigma system_voltage U_res line_length v : ℝ)
    (N n : ℕ) :
    (∀ e, calculate_rated_voltage (calculate_cov U_m)
        (calculate_tov (calculate_cov U_m) K_e) k_d k_tov = .error e →
      compute U_m K_e k_d k_tov num_insulators insulator_length sigma
        system_voltage U_res line_length v N n = .error e) ∧
    (∀ u u1 u2 e, calculate_rated_voltage (calculate_cov U_m)
        (calculate_tov (calculate_cov U_m) K_e) k_d k_tov = .ok (u, u1, u2) →
      calculate_discharge_current
          (calculate_incident_voltage num_insulators insulator_length sigma).1
          (select_Z0 system_voltage) = .error e →
      compute U_m K_e k_d k_tov num_insulators insulator_length sigma
        system_voltage U_res line_length v N n = .error e) ∧
    (∀ u u1 u2 d e, calculate_rated_voltage (calculate_cov U_m)
        (calculate_tov (calculate_cov U_m) K_e) k_d k_tov = .ok (u, u1, u2) →
      calculate_discharge_current
          (calculate_incident_voltage num_insulators insulator_length sigma).1
          (select_Z0 system_voltage) = .ok d →
      calculate_energy_absorption
          (calculate_incident_voltage num_insulators insulator_length sigma).2.1
          U_res (normalized_rated_voltage u) (select_Z0 system_voltage)
          line_length v N n = .error e →
      compute U_m K_e k_d k_tov num_insulators insulator_length sigma
        system_voltage U_res line_length v N n = .error e) ∧
    (∀ r, compute U_m K_e k_d k_tov num_insulators insulator_length sigma
        system_voltage U_res line_length v N n = .ok r →
      calculate_rated_voltage (calculate_cov U_m)
          (calculate_tov (calculate_cov U_m) K_e) k_d k_tov =
        .ok (r.U_r_theoretical, r.U_r1, r.U_r2) ∧
      calculate_discharge_current
          (calculate_incident_voltage num_insulators insulator_length sigma).1
          (select_Z0 system_voltage) = .ok (r.I_d_calculated, r.I_d_nominal) ∧
      calculate_energy_absorption
          (calculate_incident_voltage num_insulators insulator_length sigma).2.1
          U_res r.U_r_normalized (select_Z0 system_voltage)
          line_length v N n = .ok (r.W_joules, r.W_prime, r.T_w, r.discharge_class) ∧
      r.cov = calculate_cov U_m ∧
      r.tov = calculate_tov (calculate_cov U_m) K_e ∧
      r.U_r_normalized = normalized_rated_voltage r.U_r_theoretical ∧
      r.V_i = (calculate_incident_voltage num_insulators insulator_length sigma).1 ∧
      r.V_50 = (calculate_incident_voltage num_insulators insulator_length sigma).2.1 ∧
      r.string_length_w =
        (calculate_incident_voltage num_insulators insulator_length sigma).2.2 ∧
      r.Z_0 = select_Z0 system_voltage ∧
      r.NPM_estimate =
        estimate_switching_impulse_protection_level r.U_r_normalized) := by
  refine ⟨?_, ?_, ?_, ?_⟩
  · intro e he
    simp only [compute, he]
  · intro u u1 u2 e ht he
    simp only [compute, ht, he]
  · intro u u1 u2 d e ht hd he
    obtain ⟨I_d, I_nom⟩ := d
    simp only [compute, ht, hd, he]
  · intro r hr
    simp only [compute] at hr
    cases hA : calculate_rated_voltage (calculate_cov U_m)
        (calculate_tov (calculate_cov U_m) K_e) k_d k_tov with
    | error e => rw [hA] at hr; simp at hr
    | ok t =>
      obtain ⟨u, u1, u2⟩ := t
      rw [hA] at hr
      simp only at hr
      cases hB : calculate_discharge_current
          (calculate_incident_voltage num_insulators insulator_length sigma).1
          (select_Z0 system_voltage) with
      | error e => rw [hB] at hr; simp at hr
      | ok d =>
        obtain ⟨I_d, I_nom⟩ := d
        rw [hB] at hr
        simp only at hr
        cases hC : calculate_energy_absorption
            (calculate_incident_voltage num_insulators insulator_length sigma).2.1
            U_res (normalized_rated_voltage u) (select_Z0 system_voltage)
            line_length v N n with
        | error e => rw [hC] at hr; simp at hr
        | ok q =>
          obtain ⟨W, W_prime, T_w, dclass⟩ := q
          rw [hC] at hr
          simp only at hr
          rw [Except.ok.injEq] at hr
          subst hr
          exact ⟨rfl, rfl, hC, rfl, rfl, rfl, rfl, rfl, rfl, rfl, rfl⟩

theorem claim_C9_witness :
    compute 245 1.4 0 1.15 23 0.146 0.03 245 452 22.94 0.3 1 2 =
      .error PyError.zeroDivision :=
  (claim_C9 245 1.4 0 1.15 23 0.146 0.03 245 452 22.94 0.3 1 2).1
    PyError.zeroDivision (by unfold calculate_rated_voltage; rw [if_pos rfl])
